import Mathlib

/-!
Shallow embedding of the Twitter ETL job (`src/p.py`) and proofs of the
specification claims about it.

The embedding models:
  * `get_user_tweets` (the paginated fetcher with bounded exponential-backoff
    retry on rate-limit errors),
  * `transform_tweets` (the pandas normalisation/sort step), and
  * `run_twitter_etl` (the job driver) together with `check_rate_limits`.

External effects are embedded as explicit inputs: the Twitter API is an
oracle `api : Nat → ApiResp α` giving the response to the n-th page request,
user resolution is a Boolean, and the sink's write/upload outcomes are
Booleans.  Observable behaviour (result list, sleep durations, page requests
issued, actions of the driver) is returned explicitly so that properties
about side effects become properties of pure data.
-/

namespace TwitterEtl

/-- Response of one `client.get_users_tweets` call, as the fetch loop
distinguishes them: a successful page (its posts and the optional
`next_token` from `response.meta`), a `tweepy.TooManyRequests` rate-limit
error, or any other `tweepy.TweepyException`. -/
inductive ApiResp (α : Type) where
  | success (data : List α) (nextToken : Option String)
  | rateLimit
  | otherError
deriving DecidableEq, Repr

/-- Observable outcome of `get_user_tweets`: the returned list, the
`time.sleep` durations performed in order, the page requests issued
(each recorded as the `max_results` batch size and the `pagination_token`
passed), and the final value of the `retries` counter. -/
structure FetchOutcome (α : Type) where
  result : List α
  waits : List Nat
  requests : List (Int × Option String)
  retriesFinal : Nat
deriving DecidableEq, Repr

/-- Code after the `while` loop of `get_user_tweets` (src/p.py lines 88-92):
`if retries >= max_retries: return []` and otherwise `return tweets[:count]`.
Python's `tweets[:count]` is `List.take count.toNat` here: whenever the loop
body has run at all, `count > 0`, and otherwise `tweets = []`, so the
negative-slice corner of Python slicing is unreachable. -/
def finishFetch {α : Type} (count : Int) (maxRetries : Nat) (tweets : List α)
    (retries : Nat) (waits : List Nat) (reqs : List (Int × Option String)) :
    FetchOutcome α :=
  if maxRetries ≤ retries then
    { result := [], waits := waits, requests := reqs, retriesFinal := retries }
  else
    { result := tweets.take count.toNat, waits := waits, requests := reqs,
      retriesFinal := retries }

/-- The `while remaining_count > 0 and retries < max_retries` loop of
`get_user_tweets` (src/p.py lines 50-86).  `api reqs.length` is the response
to the page request being issued now (requests are numbered in the order they
are made; a retried page is a new request with the same pagination token).
The `fuel` argument is an upper bound on the remaining iterations — the loop
measure `remaining.toNat + (maxRetries - retries)` strictly decreases each
iteration — so with the initial fuel the out-of-fuel branch is unreachable;
it exits through the same post-loop code as a normal exit. -/
def fetchLoop {α : Type} (api : Nat → ApiResp α) (count : Int)
    (maxRetries initialWait : Nat) :
    Nat → List α → Option String → Int → Nat → List Nat →
      List (Int × Option String) → FetchOutcome α
  | 0, tweets, _tok, _remaining, retries, waits, reqs =>
      finishFetch count maxRetries tweets retries waits reqs
  | Nat.succ fuel, tweets, tok, remaining, retries, waits, reqs =>
      if remaining > 0 ∧ retries < maxRetries then
        match api reqs.length with
        | ApiResp.success data tok' =>
            if data.isEmpty then
              finishFetch count maxRetries tweets retries waits
                (reqs ++ [(min remaining 100, tok)])
            else
              if tok' = none ∨ count ≤ ((tweets ++ data).length : Int) then
                finishFetch count maxRetries (tweets ++ data) retries waits
                  (reqs ++ [(min remaining 100, tok)])
              else
                fetchLoop api count maxRetries initialWait fuel (tweets ++ data)
                  tok' (remaining - data.length) retries waits
                  (reqs ++ [(min remaining 100, tok)])
        | ApiResp.rateLimit =>
            fetchLoop api count maxRetries initialWait fuel tweets tok remaining
              (retries + 1) (waits ++ [initialWait * 2 ^ retries])
              (reqs ++ [(min remaining 100, tok)])
        | ApiResp.otherError =>
            { result := [], waits := waits,
              requests := reqs ++ [(min remaining 100, tok)],
              retriesFinal := retries }
      else
        finishFetch count maxRetries tweets retries waits reqs

/-- `get_user_tweets(client, username, count, max_retries, initial_wait)`
(src/p.py lines 38-96).  `userFound` embeds whether `client.get_user`
returned data; if not, the function returns `[]` without entering the loop.
The initial fuel `count.toNat + maxRetries` equals the initial loop measure,
hence suffices for every run. -/
def get_user_tweets {α : Type} (userFound : Bool) (api : Nat → ApiResp α)
    (count : Int) (maxRetries : Nat) (initialWait : Nat) : FetchOutcome α :=
  if userFound then
    fetchLoop api count maxRetries initialWait (count.toNat + maxRetries)
      [] none count 0 [] []
  else
    { result := [], waits := [], requests := [], retriesFinal := 0 }

/-- A parsed creation timestamp (`pd.to_datetime` result), to calendar-second
precision, the granularity the pipeline sorts and derives columns from. -/
structure DateTime where
  year : Nat
  month : Nat
  day : Nat
  hour : Nat
  minute : Nat
  second : Nat
deriving DecidableEq, Repr

/-- The date component extracted by `df['created_at'].dt.date`. -/
structure Date where
  year : Nat
  month : Nat
  day : Nat
deriving DecidableEq, Repr

/-- A raw post as the fetch loop accumulates it (src/p.py lines 65-71): the
dict `{'id', 'created_at', 'text', 'likes', 'retweets'}` built from one API
tweet.  `created_at` is embedded as the result of the lenient parse that
`pd.to_datetime(..., errors='coerce')` later performs: `none` is a missing or
unparseable timestamp (pandas `NaT`).  `likes`/`retweets` are `none` when the
value is missing or null (pandas `NaN`, filled by `fillna(0)`).  `text` is
its character sequence. -/
structure RawPost where
  id : Nat
  created_at : Option DateTime
  text : List Char
  likes : Option Int
  retweets : Option Int
deriving DecidableEq, Repr

/-- One output row of `transform_tweets`, with the derived columns
`tweet_length`, `created_date`, `created_hour` (src/p.py lines 101-108).
The derived date and hour are `none` exactly when `created_at` is `NaT`. -/
structure PostRecord where
  id : String
  created_at : Option DateTime
  text : List Char
  likes : Int
  retweets : Int
  tweet_length : Nat
  created_date : Option Date
  created_hour : Option Nat
deriving DecidableEq, Repr

/-- Chronological key of a timestamp: lexicographic on
(year, month, day, hour, minute, second). -/
def DateTime.key (d : DateTime) : List Nat :=
  [d.year, d.month, d.day, d.hour, d.minute, d.second]

/-- Lexicographic less-or-equal on `Nat` lists (a total preorder used as the
sort comparator; all keys compared in practice have equal length). -/
def keyLe : List Nat → List Nat → Bool
  | [], _ => true
  | _ :: _, [] => false
  | a :: as, b :: bs =>
      if a < b then true
      else if b < a then false
      else keyLe as bs

/-- Sort key of an optional timestamp.  `NaT` maps to the empty key, the
bottom of the lexicographic order, so that in the descending sort below it
lands last — pandas `sort_values` keeps `NaT` rows last (`na_position`
defaults to `'last'`). -/
def tsKey : Option DateTime → List Nat
  | none => []
  | some d => d.key

/-- Comparator embedding `df.sort_values(by='created_at', ascending=False)`:
row `a` may precede row `b` iff `b`'s timestamp key is ≤ `a`'s (descending,
`NaT` last). -/
def rowBefore (a b : PostRecord) : Bool :=
  keyLe (tsKey b.created_at) (tsKey a.created_at)

/-- `df['text'].str.replace('\n', ' ').str.strip()` (src/p.py line 105):
replace each newline character by a space, then strip leading and trailing
whitespace. -/
def cleanText (s : List Char) : List Char :=
  let replaced := s.map fun c => if c = '\n' then ' ' else c
  ((replaced.dropWhile Char.isWhitespace).reverse.dropWhile
    Char.isWhitespace).reverse

/-- The per-row work of `transform_tweets` (src/p.py lines 101-108): coerce
the id to a string, keep the leniently parsed timestamp, fill missing
likes/retweets with 0, clean the text, and derive length, date and hour. -/
def transformRow (p : RawPost) : PostRecord :=
  { id := toString p.id
    created_at := p.created_at
    text := cleanText p.text
    likes := p.likes.getD 0
    retweets := p.retweets.getD 0
    tweet_length := (cleanText p.text).length
    created_date :=
      p.created_at.map fun d => { year := d.year, month := d.month, day := d.day }
    created_hour := p.created_at.map DateTime.hour }

/-- `transform_tweets` (src/p.py lines 98-111): build the rows, then sort by
`created_at` descending with `NaT` last.  (`insertionSort` stands in for
pandas quicksort: both produce an ordering sorted under `rowBefore`; no claim
depends on the order of ties.)  On empty input the code skips every step and
returns the empty frame, which is the empty row list here. -/
def transform_tweets (posts : List RawPost) : List PostRecord :=
  List.insertionSort (fun a b => rowBefore a b = true) (posts.map transformRow)

/-- `check_rate_limits` (src/p.py lines 14-22): return the endpoint's
remaining-request quota, or `0` if the status query raised for any reason.
`statusResult` embeds the query's outcome: `some remaining` for a successful
lookup, `none` when anything in the `try` block raised. -/
def check_rate_limits (statusResult : Option Int) : Int :=
  match statusResult with
  | some remaining => remaining
  | none => 0

/-- The distinguishable failure modes of one `run_twitter_etl` run. -/
inductive EtlError where
  | configError
  | rateLimitExhausted
  | noData
  | writeError
  | uploadError
deriving DecidableEq, Repr

/-- Trace of one driver run: which error (if any) the job raised, and which
steps were reached — whether a fetch was attempted, whether the transformer
ran, whether the local CSV was written, and whether an S3 upload was
attempted. -/
structure RunResult where
  error : Option EtlError
  fetchAttempted : Bool
  transformed : Bool
  localWritten : Bool
  uploadAttempted : Bool
deriving DecidableEq, Repr

/-- `run_twitter_etl` (src/p.py lines 113-161): load credentials, build the
client, pre-check the rate-limit quota and abort if fewer than 1 request
remains, fetch up to 5 tweets for "NASA" (the call site passes `count=5` and
leaves `max_retries=3`, `initial_wait=60` at their defaults), abort with the
no-data error if the fetch returned nothing, otherwise transform, write the
CSV locally and upload it to S3.  `credsOk`, `writeOk` and `uploadOk` embed
the outcomes of the corresponding external effects; `statusResult`,
`userFound` and `api` are the inputs of `check_rate_limits` and
`get_user_tweets`. -/
def run_twitter_etl (credsOk : Bool) (statusResult : Option Int)
    (userFound : Bool) (api : Nat → ApiResp RawPost)
    (writeOk uploadOk : Bool) : RunResult :=
  if credsOk = false then
    { error := some EtlError.configError, fetchAttempted := false,
      transformed := false, localWritten := false, uploadAttempted := false }
  else
    if check_rate_limits statusResult < 1 then
      { error := some EtlError.rateLimitExhausted, fetchAttempted := false,
        transformed := false, localWritten := false, uploadAttempted := false }
    else
      if (get_user_tweets userFound api 5 3 60).result ≠ [] then
        if writeOk then
          if uploadOk then
            { error := none, fetchAttempted := true, transformed := true,
              localWritten := true, uploadAttempted := true }
          else
            { error := some EtlError.uploadError, fetchAttempted := true,
              transformed := true, localWritten := true,
              uploadAttempted := true }
        else
          { error := some EtlError.writeError, fetchAttempted := true,
            transformed := true, localWritten := false,
            uploadAttempted := false }
      else
        { error := some EtlError.noData, fetchAttempted := true,
          transformed := false, localWritten := false,
          uploadAttempted := false }

/-! ### Helper lemmas about the fetch loop -/

theorem finishFetch_result_length {α : Type} (count : Int) (m : Nat)
    (tweets : List α) (retries : Nat) (waits : List Nat)
    (reqs : List (Int × Option String)) :
    (finishFetch count m tweets retries waits reqs).result.length ≤ count.toNat := by
  unfold finishFetch
  split
  · simp
  · simp [List.length_take]

theorem finishFetch_waits {α : Type} (count : Int) (m : Nat) (tweets : List α)
    (retries : Nat) (waits : List Nat) (reqs : List (Int × Option String)) :
    (finishFetch count m tweets retries waits reqs).waits = waits := by
  unfold finishFetch
  split <;> rfl

theorem finishFetch_requests {α : Type} (count : Int) (m : Nat) (tweets : List α)
    (retries : Nat) (waits : List Nat) (reqs : List (Int × Option String)) :
    (finishFetch count m tweets retries waits reqs).requests = reqs := by
  unfold finishFetch
  split <;> rfl

theorem finishFetch_retriesFinal {α : Type} (count : Int) (m : Nat)
    (tweets : List α) (retries : Nat) (waits : List Nat)
    (reqs : List (Int × Option String)) :
    (finishFetch count m tweets retries waits reqs).retriesFinal = retries := by
  unfold finishFetch
  split <;> rfl

theorem finishFetch_result_of_exhausted {α : Type} (count : Int) (m : Nat)
    (tweets : List α) (retries : Nat) (waits : List Nat)
    (reqs : List (Int × Option String)) (h : m ≤ retries) :
    (finishFetch count m tweets retries waits reqs).result = [] := by
  unfold finishFetch
  rw [if_pos h]

theorem fetchLoop_result_length {α : Type} (api : Nat → ApiResp α) (count : Int)
    (m w : Nat) :
    ∀ (fuel : Nat) (tweets : List α) (tok : Option String) (remaining : Int)
      (retries : Nat) (waits : List Nat) (reqs : List (Int × Option String)),
      (fetchLoop api count m w fuel tweets tok remaining retries waits
        reqs).result.length ≤ count.toNat := by
  intro fuel
  induction fuel with
  | zero =>
      intro tweets tok remaining retries waits reqs
      exact finishFetch_result_length ..
  | succ fuel ih =>
      intro tweets tok remaining retries waits reqs
      rw [fetchLoop]
      split
      · split
        · split
          · exact finishFetch_result_length ..
          · split
            · exact finishFetch_result_length ..
            · exact ih ..
        · exact ih ..
        · simp
      · exact finishFetch_result_length ..

theorem fetchLoop_waits_length {α : Type} (api : Nat → ApiResp α) (count : Int)
    (m w : Nat) :
    ∀ (fuel : Nat) (tweets : List α) (tok : Option String) (remaining : Int)
      (retries : Nat) (waits : List Nat) (reqs : List (Int × Option String)),
      retries ≤ m →
      (fetchLoop api count m w fuel tweets tok remaining retries waits
        reqs).waits.length ≤ waits.length + (m - retries) := by
  intro fuel
  induction fuel with
  | zero =>
      intro tweets tok remaining retries waits reqs _h
      rw [fetchLoop, finishFetch_waits]
      omega
  | succ fuel ih =>
      intro tweets tok remaining retries waits reqs h
      rw [fetchLoop]
      split
      · rename_i hcond
        split
        · split
          · rw [finishFetch_waits]; omega
          · split
            · rw [finishFetch_waits]; omega
            · exact le_trans (ih _ _ _ _ _ _ h) (by omega)
        · refine le_trans (ih _ _ _ _ _ _ (by omega)) ?_
          simp only [List.length_append, List.length_singleton]
          omega
        · simp
      · rw [finishFetch_waits]; omega

theorem fetchLoop_requests_length {α : Type} (api : Nat → ApiResp α)
    (count : Int) (m w : Nat) :
    ∀ (fuel : Nat) (tweets : List α) (tok : Option String) (remaining : Int)
      (retries : Nat) (waits : List Nat) (reqs : List (Int × Option String)),
      (fetchLoop api count m w fuel tweets tok remaining retries waits
        reqs).requests.length ≤ reqs.length + fuel := by
  intro fuel
  induction fuel with
  | zero =>
      intro tweets tok remaining retries waits reqs
      rw [fetchLoop, finishFetch_requests]
      omega
  | succ fuel ih =>
      intro tweets tok remaining retries waits reqs
      rw [fetchLoop]
      split
      · split
        · split
          · rw [finishFetch_requests]
            simp only [List.length_append, List.length_singleton]
            omega
          · split
            · rw [finishFetch_requests]
              simp only [List.length_append, List.length_singleton]
              omega
            · refine le_trans (ih ..) ?_
              simp only [List.length_append, List.length_singleton]
              omega
        · refine le_trans (ih ..) ?_
          simp only [List.length_append, List.length_singleton]
          omega
        · simp only [List.length_append, List.length_singleton]
          omega
      · rw [finishFetch_requests]; omega

theorem fetchLoop_exhausted {α : Type} (api : Nat → ApiResp α) (count : Int)
    (m w : Nat) :
    ∀ (fuel : Nat) (tweets : List α) (tok : Option String) (remaining : Int)
      (retries : Nat) (waits : List Nat) (reqs : List (Int × Option String)),
      m ≤ (fetchLoop api count m w fuel tweets tok remaining retries waits
        reqs).retriesFinal →
      (fetchLoop api count m w fuel tweets tok remaining retries waits
        reqs).result = [] := by
  intro fuel
  induction fuel with
  | zero =>
      intro tweets tok remaining retries waits reqs h
      rw [fetchLoop] at h ⊢
      rw [finishFetch_retriesFinal] at h
      exact finishFetch_result_of_exhausted _ _ _ _ _ _ h
  | succ fuel ih =>
      intro tweets tok remaining retries waits reqs
      rw [fetchLoop]
      split
      · split
        · split
          · intro h
            rw [finishFetch_retriesFinal] at h
            exact finishFetch_result_of_exhausted _ _ _ _ _ _ h
          · split
            · intro h
              rw [finishFetch_retriesFinal] at h
              exact finishFetch_result_of_exhausted _ _ _ _ _ _ h
            · exact ih _ _ _ _ _ _
        · exact ih _ _ _ _ _ _
        · intro _h; rfl
      · intro h
        rw [finishFetch_retriesFinal] at h
        exact finishFetch_result_of_exhausted _ _ _ _ _ _ h

theorem fetchLoop_allRateLimit {α : Type} (count : Int) (m w : Nat) :
    ∀ (fuel : Nat) (tweets : List α) (tok : Option String) (remaining : Int)
      (retries : Nat) (waits : List Nat) (reqs : List (Int × Option String)),
      0 < remaining → retries ≤ m → m - retries ≤ fuel →
      fetchLoop (fun _ => ApiResp.rateLimit) count m w fuel tweets tok remaining
          retries waits reqs =
        { result := [],
          waits :=
            waits ++ (List.range (m - retries)).map fun j => w * 2 ^ (retries + j),
          requests := reqs ++ List.replicate (m - retries) (min remaining 100, tok),
          retriesFinal := m } := by
  intro fuel
  induction fuel with
  | zero =>
      intro tweets tok remaining retries waits reqs _hrem hle hfuel
      have hrm : retries = m := by omega
      subst hrm
      rw [fetchLoop]
      unfold finishFetch
      rw [if_pos le_rfl]
      simp
  | succ fuel ih =>
      intro tweets tok remaining retries waits reqs hrem hle hfuel
      rw [fetchLoop]
      by_cases hlt : retries < m
      · rw [if_pos ⟨hrem, hlt⟩]
        show fetchLoop _ count m w fuel tweets tok remaining (retries + 1)
            (waits ++ [w * 2 ^ retries]) (reqs ++ [(min remaining 100, tok)]) = _
        rw [ih _ _ _ _ _ _ hrem (by omega) (by omega)]
        obtain ⟨n, hn⟩ : ∃ n, m - retries = n + 1 := ⟨m - retries - 1, by omega⟩
        have hn' : m - (retries + 1) = n := by omega
        rw [hn, hn']
        have hfun : ∀ j, w * 2 ^ (retries + 1 + j) = w * 2 ^ (retries + Nat.succ j) := by
          intro j
          have harg : retries + 1 + j = retries + Nat.succ j := by omega
          rw [harg]
        simp [List.range_succ_eq_map, List.replicate_succ, List.map_map,
          Function.comp, hfun]
      · have hrm : retries = m := by omega
        subst hrm
        rw [if_neg (by omega)]
        unfold finishFetch
        rw [if_pos le_rfl]
        simp

/-! ### Helper lemmas about the sort order of the transformer -/

theorem keyLe_total : ∀ a b : List Nat, keyLe a b = true ∨ keyLe b a = true
  | [], b => Or.inl rfl
  | _ :: _, [] => Or.inr rfl
  | a :: as, b :: bs => by
    rcases Nat.lt_trichotomy a b with h | h | h
    · left
      simp [keyLe, h]
    · subst h
      simp only [keyLe, Nat.lt_irrefl, if_false]
      exact keyLe_total as bs
    · right
      simp [keyLe, h]

theorem keyLe_trans :
    ∀ a b c : List Nat, keyLe a b = true → keyLe b c = true → keyLe a c = true
  | [], _, _, _, _ => rfl
  | _ :: _, [], _, h, _ => by simp [keyLe] at h
  | _ :: _, _ :: _, [], _, h => by simp [keyLe] at h
  | a :: as, b :: bs, c :: cs, h1, h2 => by
    simp only [keyLe] at h1 h2 ⊢
    by_cases hab : a < b
    · by_cases hbc : b < c
      · rw [if_pos (by omega)]
      · rw [if_neg hbc] at h2
        by_cases hcb : c < b
        · rw [if_pos hcb] at h2
          exact absurd h2 (by simp)
        · have hbceq : b = c := by omega
          subst hbceq
          rw [if_pos hab]
    · rw [if_neg hab] at h1
      by_cases hba : b < a
      · rw [if_pos hba] at h1
        exact absurd h1 (by simp)
      · have habeq : a = b := by omega
        subst habeq
        rw [if_neg (by omega)] at h1
        by_cases hbc : a < c
        · rw [if_pos hbc]
        · rw [if_neg hbc] at h2 ⊢
          by_cases hcb : c < a
          · rw [if_pos hcb] at h2
            exact absurd h2 (by simp)
          · rw [if_neg hcb] at h2 ⊢
            exact keyLe_trans as bs cs h1 h2

theorem keyLe_nil_right : ∀ a : List Nat, keyLe a [] = true → a = []
  | [], _ => rfl
  | _ :: _, h => by simp [keyLe] at h

theorem tsKey_eq_nil : ∀ t : Option DateTime, tsKey t = [] → t = none
  | none, _ => rfl
  | some d, h => by simp [tsKey, DateTime.key] at h

/-- The sorting pass of `transform_tweets` really sorts: consecutive output
rows are related by the descending-timestamp comparator. -/
theorem transform_tweets_pairwise (posts : List RawPost) :
    (transform_tweets posts).Pairwise fun a b => rowBefore a b = true := by
  haveI htot : IsTotal PostRecord fun a b => rowBefore a b = true :=
    ⟨fun a b => keyLe_total (tsKey b.created_at) (tsKey a.created_at)⟩
  haveI htrans : IsTrans PostRecord fun a b => rowBefore a b = true :=
    ⟨fun a b c h1 h2 =>
      keyLe_trans (tsKey c.created_at) (tsKey b.created_at) (tsKey a.created_at)
        h2 h1⟩
  exact List.sorted_insertionSort _ _

/-! ### Claims about the Paginated Fetcher -/

/-- C1: when every attempt hits the rate limit, the fetcher increments the
retry counter on each hit and sleeps `initialWait * 2 ^ (k - 1)` seconds
before retry attempt `k`, for every `1 ≤ k ≤ maxRetries`; it performs exactly
`maxRetries` backoff waits and returns the empty sequence. -/
theorem rate_limit_backoff_schedule {α : Type} (count : Int) (m w k : Nat)
    (hcount : 0 < count) (hk1 : 1 ≤ k) (hk2 : k ≤ m) :
    (get_user_tweets true (fun _ => (ApiResp.rateLimit : ApiResp α))
        count m w).waits.length = m ∧
    (get_user_tweets true (fun _ => (ApiResp.rateLimit : ApiResp α))
        count m w).waits[k - 1]? = some (w * 2 ^ (k - 1)) ∧
    (get_user_tweets true (fun _ => (ApiResp.rateLimit : ApiResp α))
        count m w).result = [] := by
  have hget : get_user_tweets true (fun _ => (ApiResp.rateLimit : ApiResp α))
      count m w =
      fetchLoop (fun _ => ApiResp.rateLimit) count m w (count.toNat + m)
        [] none count 0 [] [] := rfl
  have hchar := fetchLoop_allRateLimit count m w (count.toNat + m)
    ([] : List α) none count 0 [] [] hcount (Nat.zero_le m) (by omega)
  rw [hget, hchar]
  refine ⟨by simp, ?_, rfl⟩
  simp only [Nat.sub_zero, List.nil_append, List.getElem?_map]
  rw [List.getElem?_range (by omega)]
  simp

/-- C1 witness: with `count = 1`, `maxRetries = 3`, `initialWait = 60` and a
rate limit on every attempt, there are three waits and the wait before the
second retry is `60 * 2 ^ 1 = 120` seconds. -/
theorem rate_limit_backoff_schedule_witness :
    (get_user_tweets true (fun _ => (ApiResp.rateLimit : ApiResp Nat))
        1 3 60).waits.length = 3 ∧
    (get_user_tweets true (fun _ => (ApiResp.rateLimit : ApiResp Nat))
        1 3 60).waits[1]? = some (60 * 2 ^ 1) ∧
    (get_user_tweets true (fun _ => (ApiResp.rateLimit : ApiResp Nat))
        1 3 60).result = [] :=
  rate_limit_backoff_schedule 1 3 60 2 (by decide) (by decide) (by decide)

/-- C2: the fetcher always terminates with bounded work: on every input it
performs at most `maxRetries` backoff waits and at most
`count.toNat + maxRetries` page requests. -/
theorem fetch_terminates_bounded {α : Type} (userFound : Bool)
    (api : Nat → ApiResp α) (count : Int) (m w : Nat) :
    (get_user_tweets userFound api count m w).waits.length ≤ m ∧
    (get_user_tweets userFound api count m w).requests.length ≤
      count.toNat + m := by
  cases userFound
  · simp [get_user_tweets]
  · constructor
    · have h := fetchLoop_waits_length api count m w (count.toNat + m)
        [] none count 0 [] [] (Nat.zero_le m)
      simpa [get_user_tweets] using h
    · have h := fetchLoop_requests_length api count m w (count.toNat + m)
        [] none count 0 [] []
      simpa [get_user_tweets] using h

/-- C3: whenever the fetch ends with the retry counter at `maxRetries` or
above, the returned sequence is empty — every post accumulated on earlier
successful pages is discarded. -/
theorem exhausted_retries_discard {α : Type} (userFound : Bool)
    (api : Nat → ApiResp α) (count : Int) (m w : Nat)
    (h : m ≤ (get_user_tweets userFound api count m w).retriesFinal) :
    (get_user_tweets userFound api count m w).result = [] := by
  cases userFound
  · rfl
  · exact fetchLoop_exhausted api count m w (count.toNat + m)
      [] none count 0 [] [] h

/-- C3 witness: a first page succeeds (one post accumulated, a next token is
present), then every further attempt is rate-limited; retries reach
`maxRetries = 2` and the fetcher returns the empty sequence, discarding the
accumulated post. -/
theorem exhausted_retries_discard_witness :
    2 ≤ (get_user_tweets true
        (fun n => if n = 0 then ApiResp.success [7] (some "t")
                  else ApiResp.rateLimit) 3 2 1).retriesFinal ∧
    (get_user_tweets true
        (fun n => if n = 0 then ApiResp.success [7] (some "t")
                  else ApiResp.rateLimit) 3 2 1).result = [] :=
  ⟨by decide,
   exhausted_retries_discard true
     (fun n => if n = 0 then ApiResp.success [7] (some "t")
               else ApiResp.rateLimit) 3 2 1 (by decide)⟩

/-- C4: for every username-resolution outcome, API behaviour and parameters,
the fetcher returns at most `count` posts. -/
theorem fetch_result_length_le_count {α : Type} (userFound : Bool)
    (api : Nat → ApiResp α) (count : Int) (m w : Nat) :
    (get_user_tweets userFound api count m w).result.length ≤ count.toNat := by
  cases userFound
  · simp [get_user_tweets]
  · exact fetchLoop_result_length api count m w (count.toNat + m)
      [] none count 0 [] []

/-- C5: for every `count ≤ 0` the loop body never runs: the fetcher returns
the empty sequence having made no page request, no wait, and no retry. -/
theorem nonpositive_count_no_request {α : Type} (userFound : Bool)
    (api : Nat → ApiResp α) (count : Int) (m w : Nat) (h : count ≤ 0) :
    get_user_tweets userFound api count m w =
      { result := [], waits := [], requests := [], retriesFinal := 0 } := by
  cases userFound
  · rfl
  · show fetchLoop api count m w (count.toNat + m) [] none count 0 [] [] = _
    have hz : count.toNat = 0 := by omega
    rw [hz]
    simp only [Nat.zero_add]
    cases m with
    | zero =>
        rw [fetchLoop]
        unfold finishFetch
        rw [if_pos le_rfl]
    | succ m' =>
        rw [fetchLoop]
        rw [if_neg (by omega)]
        unfold finishFetch
        rw [if_neg (by omega)]
        rw [hz]
        rfl

/-- C5 witness: `count = 0` yields the empty outcome with no page request. -/
theorem nonpositive_count_no_request_witness :
    get_user_tweets true (fun _ => (ApiResp.rateLimit : ApiResp Nat)) 0 3 60 =
      { result := [], waits := [], requests := [], retriesFinal := 0 } :=
  nonpositive_count_no_request true (fun _ => ApiResp.rateLimit) 0 3 60
    (by decide)

/-! ### Claims about the Transformer and the Job Driver -/

/-- C6: for every non-empty input whose posts all carry valid (parseable)
creation timestamps, the transformer output is sorted by creation timestamp
in descending order (consecutive rows satisfy the descending comparator),
and every output row still carries a valid timestamp. -/
theorem transform_sorted_descending (posts : List RawPost) (_hne : posts ≠ [])
    (hvalid : ∀ p ∈ posts, p.created_at ≠ none) :
    ((transform_tweets posts).Pairwise fun a b => rowBefore a b = true) ∧
    ∀ r ∈ transform_tweets posts, r.created_at ≠ none := by
  refine ⟨transform_tweets_pairwise posts, ?_⟩
  intro r hr
  rw [transform_tweets] at hr
  have hmem : r ∈ posts.map transformRow := (List.mem_insertionSort _).mp hr
  rcases List.mem_map.mp hmem with ⟨p, hp, hpr⟩
  subst hpr
  simpa [transformRow] using hvalid p hp

/-- C6 witness: a two-post input (older post first) with valid timestamps. -/
theorem transform_sorted_descending_witness :
    ((transform_tweets
        [{ id := 1, created_at := some ⟨2024, 1, 1, 10, 0, 0⟩, text := ['x'],
           likes := none, retweets := none },
         { id := 2, created_at := some ⟨2025, 2, 3, 4, 5, 6⟩, text := ['y'],
           likes := some 1, retweets := some 2 }]).Pairwise
      fun a b => rowBefore a b = true) ∧
    ∀ r ∈ transform_tweets
        [{ id := 1, created_at := some ⟨2024, 1, 1, 10, 0, 0⟩, text := ['x'],
           likes := none, retweets := none },
         { id := 2, created_at := some ⟨2025, 2, 3, 4, 5, 6⟩, text := ['y'],
           likes := some 1, retweets := some 2 }], r.created_at ≠ none :=
  transform_sorted_descending _ (by decide) (by decide)

/-- C7: a missing (null) likes or retweets value is mapped to the integer 0,
and on the single-post scenario input the transformer produces exactly the
expected row: id "1", timestamp 2024-01-01T10:00:00Z, text "a b", likes 0,
retweets 5, tweet length 3, date 2024-01-01, hour 10. -/
theorem missing_metrics_map_to_zero :
    (∀ p : RawPost, p.likes = none → (transformRow p).likes = 0) ∧
    (∀ p : RawPost, p.retweets = none → (transformRow p).retweets = 0) ∧
    transform_tweets
        [{ id := 1, created_at := some ⟨2024, 1, 1, 10, 0, 0⟩,
           text := "a\nb".data, likes := none, retweets := some 5 }] =
      [{ id := "1", created_at := some ⟨2024, 1, 1, 10, 0, 0⟩,
         text := "a b".data, likes := 0, retweets := 5, tweet_length := 3,
         created_date := some ⟨2024, 1, 1⟩, created_hour := some 10 }] := by
  refine ⟨?_, ?_, by decide⟩
  · intro p hp
    simp [transformRow, hp]
  · intro p hp
    simp [transformRow, hp]

/-- C7 witness: the defaulting applied to concrete posts with a null likes
value and a null retweets value respectively. -/
theorem missing_metrics_map_to_zero_witness :
    (transformRow { id := 1, created_at := some ⟨2024, 1, 1, 10, 0, 0⟩,
                    text := "a\nb".data, likes := none,
                    retweets := some 5 }).likes = 0 ∧
    (transformRow { id := 2, created_at := none, text := [],
                    likes := some 3, retweets := none }).retweets = 0 :=
  ⟨missing_metrics_map_to_zero.1 _ rfl, missing_metrics_map_to_zero.2.1 _ rfl⟩

/-- C8: when the quota pre-check passes but the fetch yields zero posts, the
driver fails with the no-data error; the transformer never runs, no local
file is written and no upload is attempted. -/
theorem zero_posts_raise_no_data (statusResult : Option Int) (userFound : Bool)
    (api : Nat → ApiResp RawPost) (writeOk uploadOk : Bool)
    (hquota : 1 ≤ check_rate_limits statusResult)
    (hempty : (get_user_tweets userFound api 5 3 60).result = []) :
    run_twitter_etl true statusResult userFound api writeOk uploadOk =
      { error := some EtlError.noData, fetchAttempted := true,
        transformed := false, localWritten := false,
        uploadAttempted := false } := by
  unfold run_twitter_etl
  rw [if_neg (by simp)]
  rw [if_neg (by omega)]
  rw [if_neg (by simp [hempty])]

/-- C8 witness: quota 5 remaining, username does not resolve, so the fetch
returns zero posts and the run ends in the no-data error with no write and
no upload. -/
theorem zero_posts_raise_no_data_witness :
    1 ≤ check_rate_limits (some 5) ∧
    (get_user_tweets false (fun _ => (ApiResp.rateLimit : ApiResp RawPost))
        5 3 60).result = [] ∧
    run_twitter_etl true (some 5) false (fun _ => ApiResp.rateLimit)
        true true =
      { error := some EtlError.noData, fetchAttempted := true,
        transformed := false, localWritten := false,
        uploadAttempted := false } :=
  ⟨by decide, rfl,
   zero_posts_raise_no_data (some 5) false (fun _ => ApiResp.rateLimit)
     true true (by decide) rfl⟩

/-- C9: if the rate-limit status query itself fails, `check_rate_limits`
returns 0, and the driver run is identical to one with a genuinely exhausted
quota: it aborts with the rate-limit-exhausted error before attempting any
fetch. -/
theorem precheck_failure_indistinguishable :
    check_rate_limits none = 0 ∧
    ∀ (userFound : Bool) (api : Nat → ApiResp RawPost) (writeOk uploadOk : Bool),
      run_twitter_etl true none userFound api writeOk uploadOk =
        run_twitter_etl true (some 0) userFound api writeOk uploadOk ∧
      run_twitter_etl true none userFound api writeOk uploadOk =
        { error := some EtlError.rateLimitExhausted, fetchAttempted := false,
          transformed := false, localWritten := false,
          uploadAttempted := false } := by
  refine ⟨rfl, ?_⟩
  intro userFound api writeOk uploadOk
  exact ⟨rfl, rfl⟩

/-- C10: a post whose creation timestamp failed to parse gets a null
timestamp with null derived date and hour, and in the output ordering every
null-timestamp record is placed after all records with valid timestamps. -/
theorem unparseable_timestamp_null_and_last :
    (∀ p : RawPost, p.created_at = none →
        (transformRow p).created_at = none ∧
        (transformRow p).created_date = none ∧
        (transformRow p).created_hour = none) ∧
    ∀ posts : List RawPost,
      (transform_tweets posts).Pairwise
        fun a b => a.created_at = none → b.created_at = none := by
  constructor
  · intro p hp
    simp [transformRow, hp]
  · intro posts
    refine (transform_tweets_pairwise posts).imp ?_
    intro a b hab hna
    have hka : tsKey a.created_at = [] := by rw [hna]; rfl
    rw [rowBefore, hka] at hab
    exact tsKey_eq_nil _ (keyLe_nil_right _ hab)

/-- C10 witness: a post with an unparseable timestamp mixed with a valid one;
the null-timestamp row keeps null derived fields and sorts after the valid
row. -/
theorem unparseable_timestamp_null_and_last_witness :
    ((transformRow { id := 9, created_at := none, text := ['z'],
                     likes := some 1, retweets := some 2 }).created_at = none ∧
     (transformRow { id := 9, created_at := none, text := ['z'],
                     likes := some 1, retweets := some 2 }).created_date = none ∧
     (transformRow { id := 9, created_at := none, text := ['z'],
                     likes := some 1, retweets := some 2 }).created_hour = none) ∧
    (transform_tweets
        [{ id := 9, created_at := none, text := ['z'],
           likes := some 1, retweets := some 2 },
         { id := 1, created_at := some ⟨2024, 1, 1, 10, 0, 0⟩, text := ['x'],
           likes := none, retweets := none }]).Pairwise
      fun a b => a.created_at = none → b.created_at = none :=
  ⟨unparseable_timestamp_null_and_last.1 _ rfl,
   unparseable_timestamp_null_and_last.2 _⟩

end TwitterEtl
